import Mathlib

/-!
Verification of `desi-spec-image.py` (DESI spectrum image fetcher).

The Python script drives a Firefox browser through Selenium: for each
input row it computes an output filename, skips the row when the PNG is
already on disk, otherwise navigates to the remote DESI spectrum viewer,
exports the rendered canvas as a base64 data URL (with a view-source
fallback path), decodes it and writes the PNG.  Tabs are recycled by
`close_oldest` and the whole batch is driven by the `__main__` loop.

The shallow embedding below models the pure helpers (`url2bytes`,
`filesize`, the filename template, the `</html>` truncation) directly,
and models the effectful routines (`load`, `save`, `close_oldest`, the
batch loop) as pure functions from an explicit environment (filesystem
state, the outcome of each browser interaction) to a result together
with a trace of the externally visible events (navigations, file
writes, printed lines) in program order.
-/

/-! ## Base64 decoding (`base64.b64decode`, non-strict mode)

`url2bytes` calls Python's `base64.b64decode` with `validate=False`.
The embedding follows CPython's `binascii.a2b_base64` in non-strict
mode: characters outside the base64 alphabet are discarded, padding is
handled leniently (a `=` completing a quad of at least two data
characters stops decoding), and a leftover partial quad at the end of
input raises (modelled as `none`).  A non-ASCII input character makes
`str.encode("ascii")` raise, also modelled as `none`. -/

/-- Value of one base64 alphabet character (`A`-`Z`, `a`-`z`, `0`-`9`, `+`, `/`),
or `none` for a character outside the alphabet. -/
def b64val (c : Char) : Option Nat :=
  if 'A' ≤ c ∧ c ≤ 'Z' then some (c.toNat - 65)
  else if 'a' ≤ c ∧ c ≤ 'z' then some (c.toNat - 97 + 26)
  else if '0' ≤ c ∧ c ≤ '9' then some (c.toNat - 48 + 52)
  else if c = '+' then some 62
  else if c = '/' then some 63
  else none

/-- Main loop of CPython's `binascii.a2b_base64` (non-strict mode), over the
state (remaining input, position in the current quad, pending bits, count of
padding characters seen in this quad, bytes emitted so far, reversed). -/
def a2bLoop : List Char → Nat → Nat → Nat → List Nat → Option (List Nat)
  | [], quadPos, _, _, acc =>
    if quadPos = 0 then some acc.reverse else none
  | c :: rest, quadPos, leftchar, pads, acc =>
    if c = '=' then
      if 2 ≤ quadPos then
        if 4 ≤ quadPos + (pads + 1) then some acc.reverse
        else a2bLoop rest quadPos leftchar (pads + 1) acc
      else a2bLoop rest quadPos leftchar pads acc
    else
      match b64val c with
      | none => a2bLoop rest quadPos leftchar pads acc
      | some v =>
        if quadPos = 0 then a2bLoop rest 1 v 0 acc
        else if quadPos = 1 then a2bLoop rest 2 (v % 16) 0 ((leftchar * 4 + v / 16) :: acc)
        else if quadPos = 2 then a2bLoop rest 3 (v % 4) 0 ((leftchar * 16 + v / 4) :: acc)
        else a2bLoop rest 0 0 0 ((leftchar * 64 + v) :: acc)

/-- Python `base64.b64decode` on a `str` argument with `validate=False`:
the string must be ASCII-encodable, then `binascii.a2b_base64` decodes it
in non-strict mode.  `none` models a raised exception. -/
def base64decode (s : List Char) : Option (List Nat) :=
  if s.all (fun c => c.toNat ≤ 127) then a2bLoop s 0 0 0 [] else none

/-! ## The data-URL decoder `url2bytes` (source lines 54-56)

`url2bytes` first applies `re.sub(r"^data:[^,]*,", "", url)`: the regex
matches exactly when the string starts with `data:` followed by some
non-comma characters and then a comma, and removes everything up to and
including that first comma; otherwise the string is left unchanged. -/

/-- Scanner for the `[^,]*,` part of the regex: drop characters up to and
including the first comma, or fail when there is no comma. -/
def dropComma : List Char → Option (List Char)
  | [] => none
  | c :: r => if c = ',' then some r else dropComma r

/-- Python `re.sub(r"^data:[^,]*,", "", url)`: when the string starts with
`data:` and contains a later comma, everything up to and including the
first comma is removed; otherwise the string is returned unchanged. -/
def subDataPre (s : List Char) : List Char :=
  match s with
  | c1 :: c2 :: c3 :: c4 :: c5 :: rest =>
    if c1 = 'd' ∧ c2 = 'a' ∧ c3 = 't' ∧ c4 = 'a' ∧ c5 = ':' then
      match dropComma rest with
      | some r => r
      | none => s
    else s
  | _ => s

/-- The function `url2bytes` of the script: strip the `data:...,` head via
the regex substitution, then base64-decode what is left. -/
def url2bytes (url : String) : Option (List Nat) :=
  base64decode (subDataPre url.data)

/-! ## HTML truncation used by the fallback path (source line 140)

The fallback writes `rv[:rv.find(g) + len(g)]` with `g = "</html>"`.
Python `str.find` returns the first index of the substring or `-1`, so
when the tag is absent the slice keeps the first `7 - 1 = 6` characters. -/

/-- Index of the first occurrence of `pat` in a list, Python `str.find`
(with `none` in place of `-1`). -/
def findSub (pat : List Char) : List Char → Option Nat
  | [] => if pat.isPrefixOf [] then some 0 else none
  | c :: t =>
    if pat.isPrefixOf (c :: t) then some 0
    else (findSub pat t).map (fun n => n + 1)

/-- The slice `rv[:rv.find("</html>") + len("</html>")]` of the fallback:
keep everything up to and including the first `</html>`; when the tag is
absent `find` yields `-1` and the slice keeps the first 6 characters. -/
def htmlTrunc (s : List Char) : List Char :=
  match findSub ("</html>".data) s with
  | some i => s.take (i + 7)
  | none => s.take 6

/-- String-level wrapper of `htmlTrunc`. -/
def truncHtml (s : String) : String :=
  ⟨htmlTrunc s.data⟩

/-! ## Filesystem state, `filesize` (source lines 62-68) -/

/-- The filesystem facts the script consults: whether a path names a regular
file (`Path.is_file`) and its `st_size`. -/
structure FS where
  is_file : String → Bool
  st_size : String → Nat

/-- The function `filesize` of the script: `f.stat().st_size if isfile(f)
else 0`. -/
def filesize (fs : FS) (f : String) : Nat :=
  if fs.is_file f then fs.st_size f else 0

/-- A filesystem with no regular files. -/
def fsEmpty : FS :=
  ⟨fun _ => false, fun _ => 0⟩

/-- A filesystem whose only regular file is `p`, of size `n`. -/
def fsWith (p : String) (n : Nat) : FS :=
  ⟨fun q => q == p, fun q => if q == p then n else 0⟩

/-! ## Filename template and progress string (source lines 179-182) -/

/-- The artifact filename template of the main loop,
`f"{row.SDSS_NAME}-desi-{dr}-{row.targetid}.png"`, with the target id
already rendered to decimal. -/
def img_name (name dr id : String) : String :=
  name ++ "-desi-" ++ dr ++ "-" ++ id ++ ".png"

/-- The filename computed for an input row: the row's `targetid` is an
integer and the f-string renders it in decimal. -/
def img_name_row (name dr : String) (targetid : Nat) : String :=
  img_name name dr (toString targetid)

/-- Python `"%Nd" % i`: left-pad the decimal rendering with spaces to
width `w`. -/
def padNum (w : Nat) (s : String) : String :=
  ⟨List.replicate (w - s.length) ' '⟩ ++ s

/-- The running progress string of the main loop,
`f"[%{nrow_ndigit}d/{nrow}] " % i` with `nrow_ndigit = len(str(nrow))`. -/
def progress (i n : Nat) : String :=
  "[" ++ padNum (toString n).length (toString i) ++ "/" ++ toString n ++ "] "

/-! ## Browser interaction model

`load` and `save` touch the outside world through Selenium and the
filesystem.  The embedding parametrises each browser interaction whose
outcome the script branches on (the result of `execute_script`, the
navigation timeout, the response status, the page source) by an
explicit environment, and records every externally visible action in a
trace of events, in program order. -/

/-- Outcome of one `execute_script` call: a returned value, a raised
`JavascriptException`, or a raised script-`TimeoutException`. -/
inductive JsRes where
  | ok (s : String)
  | err (msg : String)
  | timeout
deriving DecidableEq

/-- Contents of a file write: `write` opens in `wb` mode for `bytes` and
`wt` mode for `str` (source lines 70-76). -/
inductive FileData where
  | bin (b : List Nat)
  | txt (s : String)
deriving DecidableEq

/-- Externally visible actions of the script, in program order:
tab creation (`switch_to.new_window`), the navigations performed by
`br.get` (to the remote viewer, `about:logo`, a `view-source:` URL, a
local file, a data URL), DevTools key chord, sleeps, file writes, printed
lines, and tab closing (`br.close`). -/
inductive Ev where
  | newTab
  | navRemote (dr id : String)
  | navAbout
  | sendKeys
  | sleep (n : Nat)
  | navViewSource (u : String)
  | navLocal (p : String)
  | navUrl (u : String)
  | wr (p : String) (x : FileData)
  | printLine (s : String)
  | closeTab
deriving DecidableEq

/-- The remote viewer URL template of `load`,
`f"https://www.legacysurvey.org/viewer/desi-spectrum/{dr}/targetid{id}"`. -/
def viewerUrl (dr id : String) : String :=
  "https://www.legacysurvey.org/viewer/desi-spectrum/" ++ dr ++ "/targetid" ++ id

/-- The snapshot path of the fallback, `__dir__ / f"html/desi-{dr}-{id}.html"`,
with the script directory passed explicitly as `dir`. -/
def cachePath (dir dr id : String) : String :=
  dir ++ "/html/desi-" ++ dr ++ "-" ++ id ++ ".html"

/-- Exceptions `load` can raise that `save`'s retry loop does not catch:
the `Exception(code)` of the status check, and the decode errors of
`url2bytes` (`binascii.Error` or a non-ASCII input). -/
inductive Exc where
  | fatal (code : Nat)
  | decodeErr
deriving DecidableEq

/-- Result of one `load` call: returned bytes, or one of the exceptions it
can raise (`TimeoutException`, `JavascriptException`, or an uncaught one). -/
inductive LoadResult where
  | ok (b : List Nat)
  | timeout
  | jsErr (msg : String)
  | exc (e : Exc)
deriving DecidableEq

/-- Environment of one `load` call: whether the initial `br.get` of the
viewer page times out, the outcome of the primary canvas-export script
`v2`, the navigation `responseStatus` consulted by the fallback, the
`view-source:` page text, and the outcome of the fallback script `v3`. -/
structure LoadEnv where
  navTimeout : Bool
  primary : JsRes
  status : Nat
  pageSource : String
  fallbackJs : JsRes
deriving DecidableEq

/-- Tail of `load` (source lines 143-144): `br.get(rv)` then
`return url2bytes(rv)`, where the decode may raise. -/
def finishNav (evs : List Ev) (rv : String) : LoadResult × List Ev :=
  match url2bytes rv with
  | some b => (.ok b, evs ++ [Ev.navUrl rv])
  | none => (.exc .decodeErr, evs ++ [Ev.navUrl rv])

/-- Events of the fallback branch before the `v3` script runs (source lines
137-141): `view-source:` navigation of the current URL, the two snapshot
writes (raw source plus newline, truncated source plus newline), and the
navigation to the local copy. -/
def fbEvs (dir dr id ps : String) : List Ev :=
  [Ev.navRemote dr id, Ev.navViewSource (viewerUrl dr id),
   Ev.wr (cachePath dir dr id ++ ".orig") (FileData.txt (ps ++ "\n")),
   Ev.wr (cachePath dir dr id) (FileData.txt (truncHtml ps ++ "\n")),
   Ev.navLocal (cachePath dir dr id)]

/-- The function `load` of the script (source lines 123-144): navigate to
the viewer, run the primary export script `v2`; on a
`JavascriptException` check the navigation response status (raising
`Exception(code)` when it is at least 400), else write the two HTML
snapshots, re-navigate to the local copy and run the fallback script
`v3`; finally navigate to the data URL and decode it. -/
def load (dir : String) (env : LoadEnv) (dr id : String) : LoadResult × List Ev :=
  if env.navTimeout then (.timeout, [Ev.navRemote dr id])
  else
    match env.primary with
    | .timeout => (.timeout, [Ev.navRemote dr id])
    | .ok rv => finishNav [Ev.navRemote dr id] rv
    | .err _ =>
      if 400 ≤ env.status then (.exc (.fatal env.status), [Ev.navRemote dr id])
      else
        match env.fallbackJs with
        | .timeout => (.timeout, fbEvs dir dr id env.pageSource)
        | .err m => (.jsErr m, fbEvs dir dr id env.pageSource)
        | .ok rv => finishNav (fbEvs dir dr id env.pageSource) rv

/-! ## The retry loop of `save` (source lines 152-159)

The `while True` loop calls `load` repeatedly: a `TimeoutException`
sleeps 3 seconds and retries, a `JavascriptException` logs and returns
`False`, any other exception propagates, and returned data breaks out
of the loop.  The embedding supplies one `LoadEnv` per attempt; an
exhausted attempt list means the loop is still retrying (the Python
loop never exits on its own). -/

/-- How the retry loop stopped: with data, via the `JavascriptException`
handler, or by an exception it does not catch. -/
inductive LoopStop where
  | data (b : List Nat)
  | ignored (msg : String)
  | raised (e : Exc)
deriving DecidableEq

/-- The `while True` retry loop of `save`, over the list of per-attempt
environments.  `none` means every supplied attempt timed out and the
loop is still running. -/
def saveLoop (dir dr id : String) : List LoadEnv → Option LoopStop × List Ev
  | [] => (none, [])
  | env :: rest =>
    match load dir env dr id with
    | (.ok b, evs) => (some (.data b), evs)
    | (.jsErr m, evs) => (some (.ignored m), evs)
    | (.exc e, evs) => (some (.raised e), evs)
    | (.timeout, evs) =>
      match saveLoop dir dr id rest with
      | (r, evs2) => (r, evs ++ Ev.sleep 3 :: evs2)

/-- Result of a `save` call: a returned boolean, a propagated exception,
or a retry loop still running after all supplied attempts. -/
inductive SaveOut where
  | finished (b : Bool)
  | raised (e : Exc)
  | running
deriving DecidableEq

/-- The function `save` of the script (source lines 147-162): default the
destination, open a new tab, return `True` at once when a nonzero-size
file is already present (after showing it in the tab), else open DevTools
and run the retry loop; on data write the PNG and print the `created`
line, on a `JavascriptException` print the `ignored` line and return
`False`.  Python `print` with several arguments joins them with single
spaces. -/
def save (fs : FS) (dir : String) (attempts : List LoadEnv)
    (dr id dst0 logPre : String) : SaveOut × List Ev :=
  let dst := if dst0 = "" then "desi-" ++ dr ++ "-" ++ id ++ ".png" else dst0
  if 0 < filesize fs dst then (.finished true, [Ev.newTab, Ev.navLocal dst])
  else
    let preEvs := [Ev.newTab, Ev.navAbout, Ev.sendKeys, Ev.sleep 1]
    match saveLoop dir dr id attempts with
    | (none, evs) => (.running, preEvs ++ evs)
    | (some (.data b), evs) =>
      (.finished true, preEvs ++ evs ++
        [Ev.wr dst (FileData.bin b),
         Ev.printLine (logPre ++ "created" ++ " " ++ dr ++ " " ++ id ++ " @ " ++ dst)])
    | (some (.ignored m), evs) =>
      (.finished false, preEvs ++ evs ++
        [Ev.printLine (logPre ++ "ignored" ++ " " ++ dr ++ " " ++ id ++ " " ++ "\n" ++ m)])
    | (some (.raised e), evs) => (.raised e, preEvs ++ evs)

/-! ## Tab recycling `close_oldest` (source lines 164-169) -/

/-- The `while` loop of `close_oldest`: as long as more than `m` tabs are
open, close the one at the head of the handle list (the oldest). -/
def closeLoop (m : Nat) : List String → List String
  | [] => []
  | t :: ts => if m < (t :: ts).length then closeLoop m ts else t :: ts

/-- The function `close_oldest` of the script: close oldest tabs while more
than `max(keep_ntab, 1)` remain, then focus the last handle (the newest
tab).  Returns the remaining handle list and the focused handle. -/
def close_oldest (tabs : List String) (keep_ntab : Int) : List String × Option String :=
  let rest := closeLoop (max keep_ntab 1).toNat tabs
  (rest, rest.getLast?)

/-! ## The batch driver (source lines 172-186)

One input row per Target, carrying the per-attempt environments of its
`save` call.  A `save` returning a boolean lets the loop continue
(appending the filename on `True`); an uncaught exception aborts the
batch with the remaining rows unprocessed. -/

/-- An input row: the `SDSS_NAME` column and the `targetid` column already
rendered to decimal. -/
structure Row where
  sdssName : String
  targetid : String
deriving DecidableEq

/-- How the batch ended: all rows processed, aborted by an uncaught
exception, or stuck inside one row's retry loop. -/
inductive BatchEnd where
  | done
  | aborted (e : Exc)
  | stuck
deriving DecidableEq

/-- The `for row in eachrow(df)` loop of `__main__`: compute the artifact
name and progress string, call `save` with the per-row destination, append
the name to `imgs` on success, and continue with the next row.  Returns
how the batch ended, the collected filenames, and the event trace. -/
def batch (fs : FS) (dir out dr : String) :
    List (Row × List LoadEnv) → Nat → Nat → BatchEnd × List String × List Ev
  | [], _, _ => (.done, [], [])
  | (row, atts) :: rest, i, n =>
    let nm := img_name row.sdssName dr row.targetid
    match save fs dir atts dr row.targetid (out ++ "/" ++ nm) (progress (i + 1) n) with
    | (.finished b, evs) =>
      match batch fs dir out dr rest (i + 1) n with
      | (e2, imgs, evs2) => (e2, (if b then [nm] else []) ++ imgs, evs ++ evs2)
    | (.raised e, evs) => (.aborted e, [], evs)
    | (.running, evs) => (.stuck, [], evs)

/-! ## Concrete environments used by witnesses and counterexamples -/

/-- An attempt whose initial navigation times out. -/
def timeoutEnv : LoadEnv :=
  { navTimeout := true, primary := .ok "", status := 0, pageSource := "", fallbackJs := .ok "" }

/-- An attempt whose primary script returns a small valid data URL. -/
def okEnv : LoadEnv :=
  { navTimeout := false, primary := .ok "data:image/png;base64,AAAA",
    status := 200, pageSource := "", fallbackJs := .ok "" }

/-- An attempt where both the primary and the fallback scripts raise
`JavascriptException` with a non-error response status. -/
def jsErrEnv : LoadEnv :=
  { navTimeout := false, primary := .err "boom", status := 200,
    pageSource := "<html>x</html>", fallbackJs := .err "fallback boom" }

/-- An attempt where the primary script raises and the response status is
404. -/
def fatalEnv : LoadEnv :=
  { navTimeout := false, primary := .err "boom", status := 404,
    pageSource := "", fallbackJs := .ok "" }

/-! ## Lemmas about the regex substitution -/

/-- Dropping through the first comma of `pre ++ "," ++ payload` yields
`payload` when `pre` has no comma. -/
theorem dropComma_append (pre payload : List Char) (hp : ',' ∉ pre) :
    dropComma (pre ++ ',' :: payload) = some payload := by
  induction pre with
  | nil => simp [dropComma]
  | cons c r ih =>
    have hc : c ≠ ',' := fun h => hp (h ▸ List.mem_cons_self c r)
    have hr : ',' ∉ r := fun h => hp (List.mem_cons_of_mem c h)
    simp [dropComma, hc, ih hr]

/-- On a comma-free list the comma scanner fails. -/
theorem dropComma_none (l : List Char) (h : ',' ∉ l) : dropComma l = none := by
  induction l with
  | nil => rfl
  | cons c r ih =>
    have hc : c ≠ ',' := fun hx => h (hx ▸ List.mem_cons_self c r)
    have hr : ',' ∉ r := fun hx => h (List.mem_cons_of_mem c hx)
    simp [dropComma, hc, ih hr]

/-- On a comma-free string the regex substitution is the identity. -/
theorem subDataPre_no_comma (s : List Char) (h : ',' ∉ s) : subDataPre s = s := by
  unfold subDataPre
  split
  · rename_i c1 c2 c3 c4 c5 rest
    split
    · rename_i hchars
      have hr : ',' ∉ rest := by
        intro hx
        exact h (by simp [hx])
      rw [dropComma_none rest hr]
    · rfl
  · rfl

/-- C1 counterexample: on the malformed data URL `"data:AAAA"` (no comma, so
the regex does not match) `url2bytes` does not raise: `b64decode` discards
the non-alphabet characters `:` and silently decodes the remaining eight
characters `dataAAAA` — six bytes that differ from the three bytes of the
intended payload `AAAA`.  The claim that a malformed prefix cannot
silently produce wrong bytes is therefore false. -/
theorem url2bytes_malformed_silent_decode :
    url2bytes "data:AAAA" = some [117, 171, 90, 0, 0, 0]
    ∧ base64decode "AAAA".data = some [0, 0, 0]
    ∧ url2bytes "data:AAAA" ≠ base64decode "AAAA".data := by
  refine ⟨by decide, by decide, by decide⟩

/-- C1 (amended): for a well-formed data URL `data:<no commas>,<payload>`
the decoder strips everything up to and including the first comma and
base64-decodes the payload, and an empty payload yields zero bytes; but
for an input containing no comma the regex does not match and the whole
input (prefix included) is handed to the base64 decoder, which discards
non-alphabet characters and may silently decode prefix characters as
payload, as on `"data:AAAA"`. -/
theorem url2bytes_strip_amended (pre payload s : List Char)
    (hp : ',' ∉ pre) (hs : ',' ∉ s) :
    url2bytes ⟨'d' :: 'a' :: 't' :: 'a' :: ':' :: (pre ++ ',' :: payload)⟩
      = base64decode payload
    ∧ url2bytes ⟨s⟩ = base64decode s
    ∧ url2bytes "data:image/png;base64," = some []
    ∧ url2bytes "data:AAAA" = some [117, 171, 90, 0, 0, 0] := by
  refine ⟨?_, ?_, by decide, by decide⟩
  · have hd : dropComma (pre ++ ',' :: payload) = some payload :=
      dropComma_append pre payload hp
    simp [url2bytes, subDataPre, hd]
  · show base64decode (subDataPre s) = base64decode s
    rw [subDataPre_no_comma s hs]

/-- C1 witness: the amended statement instantiated at the concrete data URL
`data:x,QUJD` and the comma-free string `AAAA`. -/
theorem url2bytes_strip_amended_witness :
    url2bytes ⟨'d' :: 'a' :: 't' :: 'a' :: ':' :: ("x".data ++ ',' :: "QUJD".data)⟩
      = base64decode "QUJD".data
    ∧ url2bytes ⟨"AAAA".data⟩ = base64decode "AAAA".data := by
  have h := url2bytes_strip_amended "x".data "QUJD".data "AAAA".data (by decide) (by decide)
  exact ⟨h.1, h.2.1⟩

/-- C7: the artifact filename is the pure deterministic template
`<object_name>-desi-<release_tag>-<target_id>.png` of the three naming
fields, and the end-to-end example row maps to the expected filename. -/
theorem img_name_deterministic :
    (∀ name dr targetid, img_name_row name dr targetid
      = name ++ "-desi-" ++ dr ++ "-" ++ toString targetid ++ ".png")
    ∧ img_name_row "081148.27+083240.1" "dr1" 39627991554195594
      = "081148.27+083240.1-desi-dr1-39627991554195594.png" := by
  exact ⟨fun _ _ _ => rfl, by decide⟩

/-! ## Lemmas about `close_oldest` -/

/-- The close-oldest loop keeps exactly the last `m` handles: it returns the
drop of the first `length - m` elements. -/
theorem closeLoop_eq_drop (m : Nat) (l : List String) :
    closeLoop m l = l.drop (l.length - m) := by
  induction l with
  | nil => simp [closeLoop]
  | cons t ts ih =>
    by_cases h : m < (t :: ts).length
    · have hm : m ≤ ts.length := by simp at h; omega
      have : (t :: ts).length - m = (ts.length - m) + 1 := by simp; omega
      simp only [closeLoop, if_pos h, ih, this, List.drop_succ_cons]
    · have : (t :: ts).length - m = 0 := by simp at h ⊢; omega
      simp only [closeLoop, if_neg h, this, List.drop_zero]

/-- A nonempty suffix has the same last element as the whole list. -/
theorem getLast?_drop_of_lt (l : List String) (k : Nat) (h : k < l.length) :
    (l.drop k).getLast? = l.getLast? := by
  conv_rhs => rw [← List.take_append_drop k l]
  rw [List.getLast?_append_of_ne_nil]
  intro hnil
  have := congrArg List.length hnil
  simp at this
  omega

/-- C3: with at least one open tab, `close_oldest` leaves at most
`max(keepCount, 1)` tabs, the survivors are exactly the newest handles in
list order (the oldest are closed first), the focused tab is the
most-recently-created one, and in particular `keepCount = 2` leaves at
most two tabs. -/
theorem close_oldest_spec (tabs : List String) (keep_ntab : Int) (h : tabs ≠ []) :
    (close_oldest tabs keep_ntab).1.length ≤ (max keep_ntab 1).toNat
    ∧ (close_oldest tabs keep_ntab).1
        = tabs.drop (tabs.length - (max keep_ntab 1).toNat)
    ∧ (close_oldest tabs keep_ntab).2 = tabs.getLast?
    ∧ (close_oldest tabs 2).1.length ≤ 2 := by
  have hm : 1 ≤ (max keep_ntab 1).toNat := by
    have h1 : (1 : Int) ≤ max keep_ntab 1 := le_max_right _ _
    omega
  have hlen : 1 ≤ tabs.length := by
    cases tabs with
    | nil => exact absurd rfl h
    | cons a l => simp
  have hdrop := closeLoop_eq_drop (max keep_ntab 1).toNat tabs
  refine ⟨?_, hdrop, ?_, ?_⟩
  · rw [show (close_oldest tabs keep_ntab).1 = closeLoop (max keep_ntab 1).toNat tabs from rfl,
      hdrop, List.length_drop]
    omega
  · show (closeLoop (max keep_ntab 1).toNat tabs).getLast? = tabs.getLast?
    rw [hdrop]
    exact getLast?_drop_of_lt tabs _ (by omega)
  · rw [show (close_oldest tabs 2).1 = closeLoop (max (2 : Int) 1).toNat tabs from rfl,
      closeLoop_eq_drop, List.length_drop]
    omega

/-- C3 witness: a four-tab session recycled with `keepCount = 2` keeps the
two newest tabs and focuses the newest. -/
theorem close_oldest_spec_witness :
    (close_oldest ["t1", "t2", "t3", "t4"] 2).1.length ≤ (max (2 : Int) 1).toNat
    ∧ (close_oldest ["t1", "t2", "t3", "t4"] 2).1
        = ["t1", "t2", "t3", "t4"].drop (["t1", "t2", "t3", "t4"].length - (max (2 : Int) 1).toNat)
    ∧ (close_oldest ["t1", "t2", "t3", "t4"] 2).2 = ["t1", "t2", "t3", "t4"].getLast? :=
  ⟨(close_oldest_spec ["t1", "t2", "t3", "t4"] 2 (by decide)).1,
   (close_oldest_spec ["t1", "t2", "t3", "t4"] 2 (by decide)).2.1,
   (close_oldest_spec ["t1", "t2", "t3", "t4"] 2 (by decide)).2.2.1⟩

/-- C2: when a nonzero-size regular file is already at the destination,
`save` only opens a tab and shows the local file: it returns `True`, its
trace contains no navigation to the remote viewer (so `load` is never
invoked), and the existence test `filesize(dst) > 0` holds exactly when a
regular file of positive size is present at the path. -/
theorem save_skip_existing (fs : FS) (dir : String) (attempts : List LoadEnv)
    (dr id dst logPre : String) (hdst : dst ≠ "") (h : 0 < filesize fs dst) :
    save fs dir attempts dr id dst logPre
      = (.finished true, [Ev.newTab, Ev.navLocal dst])
    ∧ (∀ d i, Ev.navRemote d i ∉ (save fs dir attempts dr id dst logPre).2)
    ∧ (∀ f, 0 < filesize fs f ↔ fs.is_file f = true ∧ 0 < fs.st_size f) := by
  have hsave : save fs dir attempts dr id dst logPre
      = (.finished true, [Ev.newTab, Ev.navLocal dst]) := by
    simp [save, hdst, h]
  refine ⟨hsave, ?_, ?_⟩
  · intro d i
    rw [hsave]
    simp
  · intro f
    unfold filesize
    by_cases hf : fs.is_file f <;> simp [hf]

/-- C2 witness: a destination already on disk with seven bytes is skipped. -/
theorem save_skip_existing_witness :
    save (fsWith "spec/a.png" 7) "d" [timeoutEnv] "dr1" "5" "spec/a.png" ""
      = (.finished true, [Ev.newTab, Ev.navLocal "spec/a.png"])
    ∧ (0 < filesize (fsWith "spec/a.png" 7) "spec/a.png"
        ↔ (fsWith "spec/a.png" 7).is_file "spec/a.png" = true
          ∧ 0 < (fsWith "spec/a.png" 7).st_size "spec/a.png") := by
  have h := save_skip_existing (fsWith "spec/a.png" 7) "d" [timeoutEnv]
    "dr1" "5" "spec/a.png" "" (by decide) (by decide)
  exact ⟨h.1, h.2.2 "spec/a.png"⟩

/-! ## Trace lemmas about `load` -/

/-- The decode tail of `load` always records exactly the data-URL
navigation, whether or not the decode raises. -/
theorem finishNav_snd (evs : List Ev) (rv : String) :
    (finishNav evs rv).2 = evs ++ [Ev.navUrl rv] := by
  unfold finishNav
  cases h : url2bytes rv <;> simp [h]

/-- Shape of a `load` trace: the bare viewer navigation, the viewer
navigation followed by a data-URL navigation, the fallback events, or the
fallback events followed by a data-URL navigation. -/
theorem load_trace_cases (dir : String) (env : LoadEnv) (dr id : String) :
    (load dir env dr id).2 = [Ev.navRemote dr id]
    ∨ (∃ rv, (load dir env dr id).2 = [Ev.navRemote dr id, Ev.navUrl rv])
    ∨ (load dir env dr id).2 = fbEvs dir dr id env.pageSource
    ∨ (∃ rv, (load dir env dr id).2
        = fbEvs dir dr id env.pageSource ++ [Ev.navUrl rv]) := by
  rcases env with ⟨nt, p, st, ps, fj⟩
  cases nt with
  | true => left; rfl
  | false =>
    cases p with
    | timeout => left; rfl
    | ok rv =>
      right; left
      exact ⟨rv, by simp [load, finishNav_snd]⟩
    | err m =>
      by_cases hst : 400 ≤ st
      · left; simp [load, hst]
      · cases fj with
        | timeout => right; right; left; simp [load, hst]
        | err m2 => right; right; left; simp [load, hst]
        | ok rv =>
          right; right; right
          exact ⟨rv, by simp [load, hst, finishNav_snd]⟩

/-- Predicate selecting the printed lines of a trace. -/
def evIsPrint : Ev → Bool
  | .printLine _ => true
  | _ => false

/-- A `load` call prints nothing. -/
theorem load_filter_print (dir : String) (env : LoadEnv) (dr id : String) :
    (load dir env dr id).2.filter evIsPrint = [] := by
  rcases load_trace_cases dir env dr id with h | ⟨rv, h⟩ | h | ⟨rv, h⟩ <;>
    simp [h, fbEvs, evIsPrint]

/-- A `load` call performs no sleep. -/
theorem load_count_sleep (dir : String) (env : LoadEnv) (dr id : String) (n : Nat) :
    (load dir env dr id).2.count (Ev.sleep n) = 0 := by
  rcases load_trace_cases dir env dr id with h | ⟨rv, h⟩ | h | ⟨rv, h⟩ <;>
    simp [h, fbEvs, List.count_cons, List.count_append]

/-- A `load` call navigates to its remote viewer page exactly once. -/
theorem load_count_navRemote (dir : String) (env : LoadEnv) (dr id : String) :
    (load dir env dr id).2.count (Ev.navRemote dr id) = 1 := by
  rcases load_trace_cases dir env dr id with h | ⟨rv, h⟩ | h | ⟨rv, h⟩ <;>
    simp [h, fbEvs, List.count_cons, List.count_append]

/-- A `load` call closes no tab. -/
theorem load_no_close (dir : String) (env : LoadEnv) (dr id : String) :
    Ev.closeTab ∉ (load dir env dr id).2 := by
  rcases load_trace_cases dir env dr id with h | ⟨rv, h⟩ | h | ⟨rv, h⟩ <;>
    simp [h, fbEvs]

/-- The only paths a `load` call ever writes to are the two fallback
snapshot files. -/
theorem load_wr_cache (dir : String) (env : LoadEnv) (dr id p : String) (x : FileData)
    (h : Ev.wr p x ∈ (load dir env dr id).2) :
    p = cachePath dir dr id ∨ p = cachePath dir dr id ++ ".orig" := by
  rcases load_trace_cases dir env dr id with hc | ⟨rv, hc⟩ | hc | ⟨rv, hc⟩ <;>
    rw [hc] at h <;> simp [fbEvs] at h <;> tauto

/-! ## Claim C4: fatal remote error status -/

/-- A destination of the form `out/name` is never the empty string. -/
theorem concat_slash_ne_empty (a b : String) : a ++ "/" ++ b ≠ "" := by
  intro h
  have hlen := congrArg String.length h
  rw [String.length_append, String.length_append] at hlen
  have h1 : ("/" : String).length = 1 := rfl
  have h2 : ("" : String).length = 0 := rfl
  omega

/-- With a failing primary script and response status at least 400, `load`
raises `Exception(code)` immediately after the viewer navigation. -/
theorem load_fatal (dir : String) (env : LoadEnv) (dr id m : String)
    (hnt : env.navTimeout = false) (hp : env.primary = .err m)
    (hst : 400 ≤ env.status) :
    load dir env dr id = (.exc (.fatal env.status), [Ev.navRemote dr id]) := by
  simp [load, hnt, hp, hst]

/-- C4: when the primary script fails and the fallback sees a response
status of at least 400, `load` raises an exception that `save`'s loop
(catching only `TimeoutException` and `JavascriptException`) does not
catch: `save` propagates it after a single attempt, with no retry, no
`ignored` line, and no write, and the batch aborts with nothing further
processed. -/
theorem save_fatal_status_aborts (fs : FS) (dir : String) (rest : List LoadEnv)
    (env : LoadEnv) (dr m : String) (row : Row) (restRows : List (Row × List LoadEnv))
    (out dst lp : String) (i n : Nat)
    (hnt : env.navTimeout = false) (hp : env.primary = .err m)
    (hst : 400 ≤ env.status)
    (hdst : dst ≠ "") (hmiss : filesize fs dst = 0)
    (hmiss2 : filesize fs (out ++ "/" ++ img_name row.sdssName dr row.targetid) = 0) :
    save fs dir (env :: rest) dr row.targetid dst lp
      = (.raised (.fatal env.status),
         [Ev.newTab, Ev.navAbout, Ev.sendKeys, Ev.sleep 1, Ev.navRemote dr row.targetid])
    ∧ (batch fs dir out dr ((row, env :: rest) :: restRows) i n).1
        = .aborted (.fatal env.status)
    ∧ (batch fs dir out dr ((row, env :: rest) :: restRows) i n).2.1 = [] := by
  have hsave : ∀ d l : String, d ≠ "" → filesize fs d = 0 →
      save fs dir (env :: rest) dr row.targetid d l
        = (.raised (.fatal env.status),
           [Ev.newTab, Ev.navAbout, Ev.sendKeys, Ev.sleep 1, Ev.navRemote dr row.targetid]) := by
    intro d l hd hm
    have hnotpos : ¬ 0 < filesize fs d := by omega
    simp [save, hd, hnotpos, saveLoop, load_fatal dir env dr row.targetid m hnt hp hst]
  refine ⟨hsave dst lp hdst hmiss, ?_, ?_⟩ <;>
    simp [batch,
      hsave (out ++ "/" ++ img_name row.sdssName dr row.targetid) (progress (i + 1) n)
        (concat_slash_ne_empty out (img_name row.sdssName dr row.targetid)) hmiss2]

/-- C4 witness: a 404 surfaced through the fallback aborts the batch. -/
theorem save_fatal_status_aborts_witness :
    save fsEmpty "d" [fatalEnv] "dr1" "5" "out/a.png" ""
      = (.raised (.fatal 404),
         [Ev.newTab, Ev.navAbout, Ev.sendKeys, Ev.sleep 1, Ev.navRemote "dr1" "5"])
    ∧ (batch fsEmpty "d" "spec" "dr1"
        [(⟨"n1", "5"⟩, [fatalEnv]), (⟨"n2", "22"⟩, [okEnv])] 0 2).1
        = .aborted (.fatal 404) := by
  have h := save_fatal_status_aborts fsEmpty "d" [] fatalEnv "dr1" "boom"
    ⟨"n1", "5"⟩ [(⟨"n2", "22"⟩, [okEnv])] "spec" "out/a.png" "" 0 2
    rfl rfl (by decide) (by decide) (by decide) (by decide)
  exact ⟨h.1, h.2.1⟩

/-! ## Claim C5: timeout retry loop -/

/-- Events of `k` consecutive timed-out attempts: each attempt navigates to
the viewer, times out and sleeps 3 seconds. -/
def tBlock (dr id : String) : Nat → List Ev
  | 0 => []
  | k + 1 => Ev.navRemote dr id :: Ev.sleep 3 :: tBlock dr id k

/-- A navigation-timeout attempt makes `load` raise `TimeoutException`
right after the viewer navigation. -/
theorem load_timeoutEnv (dir dr id : String) :
    load dir timeoutEnv dr id = (.timeout, [Ev.navRemote dr id]) := rfl

/-- Running the retry loop on `k` timed-out attempts followed by further
attempts: the outcome is that of the further attempts and the trace is
prefixed by the `k` timeout rounds. -/
theorem saveLoop_replicate_timeout (dir dr id : String) (k : Nat) (rest : List LoadEnv) :
    saveLoop dir dr id (List.replicate k timeoutEnv ++ rest)
      = ((saveLoop dir dr id rest).1, tBlock dr id k ++ (saveLoop dir dr id rest).2) := by
  induction k with
  | zero => simp [tBlock]
  | succ k ih =>
    rw [List.replicate_succ, List.cons_append]
    simp [saveLoop, load_timeoutEnv, ih, tBlock]

/-- The timeout rounds print nothing. -/
theorem tBlock_filter_print (dr id : String) (k : Nat) :
    (tBlock dr id k).filter evIsPrint = [] := by
  induction k with
  | zero => rfl
  | succ k ih => simp [tBlock, evIsPrint, ih]

/-- The timeout rounds sleep 3 seconds exactly once per timed-out attempt. -/
theorem tBlock_count_sleep (dr id : String) (k : Nat) :
    (tBlock dr id k).count (Ev.sleep 3) = k := by
  induction k with
  | zero => rfl
  | succ k ih => simp [tBlock, List.count_cons, ih]

/-- The timeout rounds navigate to the viewer exactly once per attempt. -/
theorem tBlock_count_navRemote (dr id : String) (k : Nat) :
    (tBlock dr id k).count (Ev.navRemote dr id) = k := by
  induction k with
  | zero => rfl
  | succ k ih => simp [tBlock, List.count_cons, ih]

/-- C5: however many navigation timeouts precede a successful attempt,
`save` returns `True`; exactly one line is printed, the `created` line
(not one per attempt); the trace sleeps the fixed 3-second delay once per
timeout and navigates to the same Target's viewer page once per attempt;
and when every supplied attempt times out the loop is still running:
a timeout never yields `False` (`ignored`) and never raises. -/
theorem save_timeout_retry_unbounded (fs : FS) (dir : String) (k : Nat)
    (env : LoadEnv) (dr id dst lp : String) (b : List Nat) (evs : List Ev)
    (hdst : dst ≠ "") (hmiss : filesize fs dst = 0)
    (henv : load dir env dr id = (.ok b, evs)) :
    (save fs dir (List.replicate k timeoutEnv ++ [env]) dr id dst lp).1
      = .finished true
    ∧ (save fs dir (List.replicate k timeoutEnv ++ [env]) dr id dst lp).2.filter evIsPrint
      = [Ev.printLine (lp ++ "created" ++ " " ++ dr ++ " " ++ id ++ " @ " ++ dst)]
    ∧ (save fs dir (List.replicate k timeoutEnv ++ [env]) dr id dst lp).2.count (Ev.sleep 3)
      = k
    ∧ (save fs dir (List.replicate k timeoutEnv ++ [env]) dr id dst lp).2.count
        (Ev.navRemote dr id) = k + 1
    ∧ (save fs dir (List.replicate k timeoutEnv) dr id dst lp).1 = .running := by
  have hnotpos : ¬ 0 < filesize fs dst := by omega
  have hfp : evs.filter evIsPrint = [] := by
    have := load_filter_print dir env dr id
    rw [henv] at this
    exact this
  have hcs : evs.count (Ev.sleep 3) = 0 := by
    have := load_count_sleep dir env dr id 3
    rw [henv] at this
    exact this
  have hcn : evs.count (Ev.navRemote dr id) = 1 := by
    have := load_count_navRemote dir env dr id
    rw [henv] at this
    exact this
  have hloop : saveLoop dir dr id (List.replicate k timeoutEnv ++ [env])
      = (some (.data b), tBlock dr id k ++ evs) := by
    rw [saveLoop_replicate_timeout]
    simp [saveLoop, henv]
  have hloop2 : saveLoop dir dr id (List.replicate k timeoutEnv)
      = (none, tBlock dr id k) := by
    have := saveLoop_replicate_timeout dir dr id k []
    simpa [saveLoop] using this
  refine ⟨?_, ?_, ?_, ?_, ?_⟩
  · simp [save, hdst, hnotpos, hloop]
  · simp [save, hdst, hnotpos, hloop, List.filter_append, tBlock_filter_print, hfp, evIsPrint]
  · simp [save, hdst, hnotpos, hloop, List.count_append, List.count_cons,
      tBlock_count_sleep, hcs]
  · simp [save, hdst, hnotpos, hloop, List.count_append, List.count_cons,
      tBlock_count_navRemote, hcn]
  · simp [save, hdst, hnotpos, hloop2]

/-- C5 witness: two timeouts followed by a success yield `True` with a
single `created` line, two 3-second sleeps, three viewer navigations; two
timeouts alone leave the loop running. -/
theorem save_timeout_retry_unbounded_witness :
    (save fsEmpty "d" (List.replicate 2 timeoutEnv ++ [okEnv]) "dr1" "5" "out/a.png" "").1
      = .finished true
    ∧ (save fsEmpty "d" (List.replicate 2 timeoutEnv ++ [okEnv]) "dr1" "5"
        "out/a.png" "").2.filter evIsPrint
      = [Ev.printLine ("" ++ "created" ++ " " ++ "dr1" ++ " " ++ "5" ++ " @ " ++ "out/a.png")]
    ∧ (save fsEmpty "d" (List.replicate 2 timeoutEnv) "dr1" "5" "out/a.png" "").1
      = .running := by
  have h := save_timeout_retry_unbounded fsEmpty "d" 2 okEnv "dr1" "5" "out/a.png" ""
    [0, 0, 0] [Ev.navRemote "dr1" "5", Ev.navUrl "data:image/png;base64,AAAA"]
    (by decide) (by decide) (by decide)
  exact ⟨h.1, h.2.1, h.2.2.2.2⟩

/-! ## Claim C6: non-retryable scripting failure -/

/-- C6: when `load` raises a `JavascriptException` not resolved by the
fallback, `save` prints the `ignored` line — carrying the release tag and
the target id — and returns `False`; the batch driver then proceeds with
the remaining rows (same ending, same collected filenames, and the
failed Target's name is not collected) instead of aborting. -/
theorem save_jserr_ignored_continues (fs : FS) (dir : String) (more : List LoadEnv)
    (env : LoadEnv) (dr m dst lp out : String) (evsL : List Ev) (row : Row)
    (restRows : List (Row × List LoadEnv)) (i n : Nat)
    (hdst : dst ≠ "") (hmiss : filesize fs dst = 0)
    (hmiss2 : filesize fs (out ++ "/" ++ img_name row.sdssName dr row.targetid) = 0)
    (henv : load dir env dr row.targetid = (.jsErr m, evsL)) :
    (save fs dir (env :: more) dr row.targetid dst lp).1 = .finished false
    ∧ Ev.printLine (lp ++ "ignored" ++ " " ++ dr ++ " " ++ row.targetid ++ " " ++ "\n" ++ m)
        ∈ (save fs dir (env :: more) dr row.targetid dst lp).2
    ∧ (batch fs dir out dr ((row, env :: more) :: restRows) i n).1
        = (batch fs dir out dr restRows (i + 1) n).1
    ∧ (batch fs dir out dr ((row, env :: more) :: restRows) i n).2.1
        = (batch fs dir out dr restRows (i + 1) n).2.1 := by
  have hsave : ∀ d l : String, d ≠ "" → filesize fs d = 0 →
      save fs dir (env :: more) dr row.targetid d l
        = (.finished false,
           [Ev.newTab, Ev.navAbout, Ev.sendKeys, Ev.sleep 1] ++ evsL ++
             [Ev.printLine (l ++ "ignored" ++ " " ++ dr ++ " " ++ row.targetid
               ++ " " ++ "\n" ++ m)]) := by
    intro d l hd hm
    have hnotpos : ¬ 0 < filesize fs d := by omega
    simp [save, hd, hnotpos, saveLoop, henv]
  have hb := hsave (out ++ "/" ++ img_name row.sdssName dr row.targetid)
    (progress (i + 1) n)
    (concat_slash_ne_empty out (img_name row.sdssName dr row.targetid)) hmiss2
  refine ⟨?_, ?_, ?_, ?_⟩
  · rw [hsave dst lp hdst hmiss]
  · rw [hsave dst lp hdst hmiss]
    simp
  · simp only [batch, hb]
  · simp only [batch, hb]
    simp

/-- C6 witness: a Target whose fallback also raises is logged as ignored
and the next Target is still processed (the batch completes and collects
the second Target's filename). -/
theorem save_jserr_ignored_continues_witness :
    (save fsEmpty "d" [jsErrEnv] "dr1" "11" "out/a.png" "[1/2] ").1 = .finished false
    ∧ Ev.printLine ("[1/2] " ++ "ignored" ++ " " ++ "dr1" ++ " " ++ "11" ++ " " ++ "\n"
        ++ "fallback boom")
        ∈ (save fsEmpty "d" [jsErrEnv] "dr1" "11" "out/a.png" "[1/2] ").2
    ∧ (batch fsEmpty "d" "spec" "dr1"
        [(⟨"n1", "11"⟩, [jsErrEnv]), (⟨"n2", "22"⟩, [okEnv])] 0 2).1
      = (batch fsEmpty "d" "spec" "dr1" [(⟨"n2", "22"⟩, [okEnv])] 1 2).1 := by
  have h := save_jserr_ignored_continues fsEmpty "d" [] jsErrEnv "dr1" "fallback boom"
    "out/a.png" "[1/2] " "spec"
    (fbEvs "d" "dr1" "11" "<html>x</html>") ⟨"n1", "11"⟩
    [(⟨"n2", "22"⟩, [okEnv])] 0 2
    (by decide) (by decide) (by decide) (by decide)
  exact ⟨h.1, h.2.1, h.2.2.1⟩

/-! ## Claim C8: files written by `load` -/

/-- The file writes of a trace, in order. -/
def writesOf (l : List Ev) : List (String × FileData) :=
  l.filterMap fun e =>
    match e with
    | .wr p x => some (p, x)
    | _ => none

/-- A successful `findSub` finds an actual occurrence: the pattern starts
at the reported index. -/
theorem findSub_isPre (pat : List Char) (s : List Char) (i : Nat)
    (h : findSub pat s = some i) : pat.isPrefixOf (s.drop i) = true := by
  induction s generalizing i with
  | nil =>
    unfold findSub at h
    split at h
    · cases h
      simpa using (by assumption : pat.isPrefixOf [] = true)
    · cases h
  | cons c t ih =>
    unfold findSub at h
    split at h
    · cases h
      simpa using (by assumption : pat.isPrefixOf (c :: t) = true)
    · rcases Option.map_eq_some'.mp h with ⟨j, hj, hij⟩
      subst hij
      simpa using ih j hj

/-- When the closing tag occurs at index `i` (its first occurrence), the
fallback truncation keeps exactly the text before the tag followed by the
tag itself. -/
theorem htmlTrunc_tag (s : List Char) (i : Nat)
    (h : findSub "</html>".data s = some i) :
    htmlTrunc s = s.take i ++ "</html>".data := by
  have hp : "</html>".data <+: s.drop i :=
    List.isPrefixOf_iff_prefix.mp (findSub_isPre "</html>".data s i h)
  have htake : (s.drop i).take 7 = "</html>".data := by
    have h2 := (List.prefix_iff_eq_take.mp hp).symm
    have h7 : ("</html>".data).length = 7 := rfl
    rw [h7] at h2
    exact h2
  unfold htmlTrunc
  rw [h]
  show s.take (i + 7) = s.take i ++ "</html>".data
  rw [List.take_add s i 7, htake]

/-- C8: `load` writes files exactly when the fallback extraction path is
exercised (primary script failure with a sub-400 response status), and
then writes precisely the snapshot pair — the raw page source (plus
newline) to `<cache>.html.orig` and its truncation up to and including
the closing `</html>` tag (plus newline) to `<cache>.html`, in that
order; on the primary path, on a timeout, and on the fatal-status path it
writes nothing. -/
theorem load_writes_only_fallback (dir dr id : String) (env : LoadEnv)
    (m rv : String) (s : List Char) (i : Nat) :
    (env.navTimeout = false → env.primary = .err m → env.status < 400 →
      writesOf (load dir env dr id).2
        = [(cachePath dir dr id ++ ".orig", FileData.txt (env.pageSource ++ "\n")),
           (cachePath dir dr id, FileData.txt (truncHtml env.pageSource ++ "\n"))])
    ∧ (env.primary = .ok rv → writesOf (load dir env dr id).2 = [])
    ∧ (env.navTimeout = true → writesOf (load dir env dr id).2 = [])
    ∧ (env.primary = .timeout → writesOf (load dir env dr id).2 = [])
    ∧ (env.primary = .err m → 400 ≤ env.status → writesOf (load dir env dr id).2 = [])
    ∧ (findSub "</html>".data s = some i → htmlTrunc s = s.take i ++ "</html>".data) := by
  refine ⟨?_, ?_, ?_, ?_, ?_, htmlTrunc_tag s i⟩
  · intro hnt hp hst
    have hnotst : ¬ 400 ≤ env.status := by omega
    cases hfj : env.fallbackJs <;>
      simp [load, hnt, hp, hnotst, hfj, finishNav_snd, writesOf, fbEvs]
  · intro hp
    cases hnt : env.navTimeout <;>
      simp [load, hnt, hp, finishNav_snd, writesOf]
  · intro hnt
    simp [load, hnt, writesOf]
  · intro hp
    cases hnt : env.navTimeout <;> simp [load, hnt, hp, writesOf]
  · intro hp hst
    cases hnt : env.navTimeout <;> simp [load, hnt, hp, hst, writesOf]

/-- C8 witness: the fallback on a small page writes exactly the snapshot
pair, the primary path writes nothing, and the truncation of
`a</html>b` keeps `a</html>`. -/
theorem load_writes_only_fallback_witness :
    writesOf (load "d" jsErrEnv "dr1" "5").2
      = [(cachePath "d" "dr1" "5" ++ ".orig", FileData.txt ("<html>x</html>" ++ "\n")),
         (cachePath "d" "dr1" "5", FileData.txt (truncHtml "<html>x</html>" ++ "\n"))]
    ∧ writesOf (load "d" okEnv "dr1" "5").2 = []
    ∧ htmlTrunc "a</html>b".data = ("a</html>b".data.take 1 ++ "</html>".data) := by
  have h1 := load_writes_only_fallback "d" "dr1" "5" jsErrEnv "boom"
    "data:image/png;base64,AAAA" "a</html>b".data 1
  have h2 := load_writes_only_fallback "d" "dr1" "5" okEnv "boom"
    "data:image/png;base64,AAAA" "a</html>b".data 1
  exact ⟨h1.1 rfl rfl (by decide), h2.2.1 rfl, h1.2.2.2.2.2 (by decide)⟩

/-! ## Claim C9: tab lifetime on a cache hit -/

/-- C9 counterexample: on a cache hit `save` completes successfully yet its
trace contains no tab-closing action — the new tab is merely navigated to
the existing file and left open, so the claim that the tab is closed
immediately within the `save` call is false. -/
theorem save_cache_hit_no_close_cex :
    (save (fsWith "spec/a.png" 9) "d" [] "dr1" "7" "spec/a.png" "").1 = .finished true
    ∧ Ev.closeTab ∉ (save (fsWith "spec/a.png" 9) "d" [] "dr1" "7" "spec/a.png" "").2 := by
  refine ⟨by decide, by decide⟩

/-- C9 (amended): for a Target processed via the cache-hit branch, the tab
created for it is not closed within the `save` call — `save` only
navigates it to the local artifact and returns `True` — and the tab is
closed only later by the recycling policy, `close_oldest`, which with the
driver's `keepCount = 2` drops the oldest handles down to the two newest. -/
theorem save_cache_hit_tab_left_open (fs : FS) (dir : String) (attempts : List LoadEnv)
    (dr id dst lp : String) (hdst : dst ≠ "") (h : 0 < filesize fs dst) :
    save fs dir attempts dr id dst lp
      = (.finished true, [Ev.newTab, Ev.navLocal dst])
    ∧ Ev.closeTab ∉ (save fs dir attempts dr id dst lp).2
    ∧ (∀ tabs : List String, (close_oldest tabs 2).1 = tabs.drop (tabs.length - 2)) := by
  have hsave : save fs dir attempts dr id dst lp
      = (.finished true, [Ev.newTab, Ev.navLocal dst]) := by
    simp [save, hdst, h]
  refine ⟨hsave, ?_, ?_⟩
  · rw [hsave]
    simp
  · intro tabs
    show closeLoop (max (2 : Int) 1).toNat tabs = tabs.drop (tabs.length - 2)
    have hm : (max (2 : Int) 1).toNat = 2 := by decide
    rw [closeLoop_eq_drop, hm]

/-- C9 witness: the amended statement at the concrete cache-hit input. -/
theorem save_cache_hit_tab_left_open_witness :
    save (fsWith "spec/b.png" 4) "d" [] "dr1" "8" "spec/b.png" ""
      = (.finished true, [Ev.newTab, Ev.navLocal "spec/b.png"])
    ∧ Ev.closeTab ∉ (save (fsWith "spec/b.png" 4) "d" [] "dr1" "8" "spec/b.png" "").2
    ∧ (close_oldest ["t1", "t2", "t3"] 2).1 = ["t1", "t2", "t3"].drop (3 - 2) := by
  have h := save_cache_hit_tab_left_open (fsWith "spec/b.png" 4) "d" [] "dr1" "8"
    "spec/b.png" "" (by decide) (by decide)
  exact ⟨h.1, h.2.1, h.2.2 ["t1", "t2", "t3"]⟩

/-! ## Claim C10: a failed `save` never writes the destination -/

/-- Any write performed inside the retry loop goes to one of the two
fallback snapshot paths. -/
theorem saveLoop_wr_cache (dir dr id : String) (atts : List LoadEnv)
    (p : String) (x : FileData)
    (h : Ev.wr p x ∈ (saveLoop dir dr id atts).2) :
    p = cachePath dir dr id ∨ p = cachePath dir dr id ++ ".orig" := by
  induction atts with
  | nil => simp [saveLoop] at h
  | cons env rest ih =>
    have hl := load_wr_cache dir env dr id p x
    cases hload : load dir env dr id with
    | mk r evs =>
      rw [hload] at hl
      cases r <;> simp_all [saveLoop, hload] <;> rcases h with h | h <;> simp_all

/-- C10: whenever `save` returns `False` (the ignored case), nothing has
been written to the destination path by that call — `write(dst, data)` is
only reached after a successful `load`, and the loop's own writes go to
the fallback snapshot paths, which differ from the destination. -/
theorem save_false_no_dst_write (fs : FS) (dir : String) (atts : List LoadEnv)
    (dr id dst lp : String) (x : FileData)
    (hdst : dst ≠ "")
    (h1 : dst ≠ cachePath dir dr id)
    (h2 : dst ≠ cachePath dir dr id ++ ".orig")
    (hres : (save fs dir atts dr id dst lp).1 = .finished false) :
    Ev.wr dst x ∉ (save fs dir atts dr id dst lp).2 := by
  by_cases hex : 0 < filesize fs dst
  · rw [(save_skip_existing fs dir atts dr id dst lp hdst hex).1] at hres
    cases hres
  · intro hmem
    cases hsl : saveLoop dir dr id atts with
    | mk r evs =>
      cases r with
      | none => simp [save, hdst, hex, hsl] at hres
      | some stop =>
        cases stop with
        | data b => simp [save, hdst, hex, hsl] at hres
        | raised e => simp [save, hdst, hex, hsl] at hres
        | ignored m =>
          rw [show (save fs dir atts dr id dst lp).2
              = [Ev.newTab, Ev.navAbout, Ev.sendKeys, Ev.sleep 1] ++ evs ++
                [Ev.printLine (lp ++ "ignored" ++ " " ++ dr ++ " " ++ id ++ " " ++ "\n" ++ m)]
            from by simp [save, hdst, hex, hsl]] at hmem
          rcases List.mem_append.mp hmem with hm2 | hm2
          · rcases List.mem_append.mp hm2 with hm3 | hm3
            · simp at hm3
            · have := saveLoop_wr_cache dir dr id atts dst x (by rw [hsl]; exact hm3)
              tauto
          · simp at hm2

/-- C10 witness: a `save` that returns `False` has no write to its
destination path in its trace. -/
theorem save_false_no_dst_write_witness :
    Ev.wr "out/a.png" (FileData.bin [0])
      ∉ (save fsEmpty "d" [jsErrEnv] "dr1" "5" "out/a.png" "").2 := by
  exact save_false_no_dst_write fsEmpty "d" [jsErrEnv] "dr1" "5" "out/a.png" ""
    (FileData.bin [0]) (by decide) (by decide) (by decide) (by decide)
